import Mathlib

/-!
Verification development for `Geolocation_matcher.py`: a coordinate parser
(`parse_coordinate`, `dms_to_decimal`, the CSV loading loop) and a
nearest-neighbour matcher (`haversine`, `match_closest_points`).

The parser side is embedded over exact rationals: a Python `float` produced
from a decimal literal is modelled by the rational the literal denotes.
The distance geometry (`haversine`, the KDTree proxy metric) is embedded
over the reals.
-/

/-- Model of Python `str.split()` (no separator argument): split on runs of
whitespace, discarding empty fields.  Structural recursion over the
character list; `acc` holds the current field reversed. -/
def pySplitAux : List Char → List Char → List String
  | [], acc => if acc.isEmpty then [] else [String.mk acc.reverse]
  | c :: cs, acc =>
    if c.isWhitespace then
      if acc.isEmpty then pySplitAux cs [] else String.mk acc.reverse :: pySplitAux cs []
    else pySplitAux cs (c :: acc)

/-- Python `input_str.split()`. -/
def pySplit (s : String) : List String := pySplitAux s.data []

/-- Leading and trailing whitespace removal, as Python `float` applies to its
argument before parsing. -/
def pyStrip (s : String) : String :=
  String.mk (((s.data.dropWhile Char.isWhitespace).reverse.dropWhile Char.isWhitespace).reverse)

/-- Numeric value of a list of decimal digit characters (most significant
first); the empty list denotes 0. -/
def natOfDigits (ds : List Char) : ℕ :=
  ds.foldl (fun n c => 10 * n + (c.toNat - 48)) 0

/-- Longest prefix of decimal digits, together with the rest. -/
def takeDigits : List Char → List Char × List Char
  | [] => ([], [])
  | c :: cs =>
    if c.isDigit then
      let p := takeDigits cs
      (c :: p.1, p.2)
    else ([], c :: cs)

/-- Optional leading sign: `+` gives 1, `-` gives -1, otherwise 1 with no
character consumed. -/
def readSign : List Char → ℤ × List Char
  | '+' :: cs => (1, cs)
  | '-' :: cs => (-1, cs)
  | cs => (1, cs)

/-- Mantissa of a Python float literal: digits, optionally a point and more
digits, with at least one digit overall.  Returns its rational value and the
unconsumed rest. -/
def readMantissa (cs : List Char) : Option (ℚ × List Char) :=
  let ip := takeDigits cs
  match ip.2 with
  | '.' :: cs2 =>
    let fp := takeDigits cs2
    if ip.1.isEmpty && fp.1.isEmpty then none
    else some ((natOfDigits ip.1 : ℚ) + (natOfDigits fp.1 : ℚ) / (10 : ℚ) ^ fp.1.length, fp.2)
  | rest => if ip.1.isEmpty then none else some ((natOfDigits ip.1 : ℚ), rest)

/-- Digits of an exponent part, with optional sign; must consume the whole
rest of the string. -/
def readExpDigits (cs : List Char) : Option ℤ :=
  let sg := readSign cs
  let ds := takeDigits sg.2
  if ds.1.isEmpty || !ds.2.isEmpty then none else some (sg.1 * (natOfDigits ds.1 : ℤ))

/-- Optional exponent suffix `e`/`E` followed by a signed integer; an empty
rest means exponent 0; anything else fails. -/
def readExp : List Char → Option ℤ
  | [] => some (0 : ℤ)
  | 'e' :: cs => readExpDigits cs
  | 'E' :: cs => readExpDigits cs
  | _ => none

/-- Scale a mantissa by a signed power of ten. -/
def applyExp (v : ℚ) (e : ℤ) : ℚ :=
  if 0 ≤ e then v * (10 : ℚ) ^ e.toNat else v / (10 : ℚ) ^ (-e).toNat

/-- Model of Python `float(s)` on decimal literals: optional surrounding
whitespace, optional sign, digits with optional fractional part, optional
decimal exponent.  The value is kept exact as a rational.  (The special
forms `inf`/`nan` and digit-group underscores are outside the model; no
input considered here uses them.) -/
def pyFloat (s : String) : Option ℚ :=
  let sg := readSign (pyStrip s).data
  match readMantissa sg.2 with
  | none => none
  | some vr =>
    match readExp vr.2 with
    | none => none
    | some e => some ((sg.1 : ℚ) * applyExp vr.1 e)

/-- Model of Python `str.isdigit()` restricted to ASCII: non-empty and all
characters decimal digits. -/
def pyIsdigit (s : String) : Bool := !s.data.isEmpty && s.data.all Char.isDigit

/-- Model of Python `str.upper()` restricted to ASCII. -/
def pyUpper (s : String) : String := String.mk (s.data.map Char.toUpper)

/-- `dms_to_decimal(degrees, minutes, seconds, direction)` from the source:
degrees + minutes/60 + seconds/3600, negated when the direction is the
string S or W. -/
def dms_to_decimal (degrees minutes seconds : ℚ) (direction : String) : ℚ :=
  let decimal := degrees + minutes / 60 + seconds / 3600
  if direction = "S" ∨ direction = "W" then -decimal else decimal

/-- `parse_coordinate(input_str)` from the source: split the input on
whitespace; 2 fields are degrees and decimal minutes; 3 fields are degrees,
minutes and either integer seconds (third field `isdigit`) or a direction
suffix; 4 fields are degrees, minutes, seconds, direction; any other shape
falls back to `float(input_str)`.  A failed `float` conversion (Python
`ValueError`) yields `none`. -/
def parse_coordinate (input_str : String) : Option ℚ :=
  match pySplit input_str with
  | [d, m] =>
    match pyFloat d, pyFloat m with
    | some dv, some mv => some (dv + mv / 60)
    | _, _ => none
  | [d, m, lp] =>
    if pyIsdigit lp then
      match pyFloat d, pyFloat m, pyFloat lp with
      | some dv, some mv, some sv => some (dv + mv / 60 + sv / 3600)
      | _, _, _ => none
    else
      match pyFloat d, pyFloat m with
      | some dv, some mv => some (dms_to_decimal dv mv 0 (pyUpper lp))
      | _, _ => none
  | [d, m, sec, dir] =>
    match pyFloat d, pyFloat m, pyFloat sec with
    | some dv, some mv, some sv => some (dms_to_decimal dv mv sv (pyUpper dir))
    | _, _, _ => none
  | _ => pyFloat input_str

/-- Body of the row loop of `load_coordinates_from_csv`: parse both tokens
of a row; skip the row when either fails or a value is out of range,
otherwise keep the exact parsed pair. -/
def validate_pair (r : String × String) : Option (ℚ × ℚ) :=
  match parse_coordinate r.1, parse_coordinate r.2 with
  | some lat, some lon =>
    if -90 ≤ lat ∧ lat ≤ 90 then
      if -180 ≤ lon ∧ lon ≤ 180 then some (lat, lon) else none
    else none
  | _, _ => none

/-- `load_coordinates_from_csv` from the source, with the CSV file I/O
abstracted to the list of (latitude token, longitude token) rows it yields:
the parsed pairs of the accepted rows, in row order. -/
def load_coordinates_from_csv (rows : List (String × String)) : List (ℚ × ℚ) :=
  rows.filterMap validate_pair

/-- Fixed spherical Earth radius in kilometres, `radius_earth = 6371` from
the source. -/
def radius_earth : ℝ := 6371

/-- Python `math.radians`: degrees to radians. -/
noncomputable def radians (x : ℝ) : ℝ := x * (Real.pi / 180)

/-- Python `math.atan2(y, x)`: the C `atan2` convention (signed zeros have
no counterpart over `ℝ`; `atan2 0 0 = 0` as in CPython). -/
noncomputable def atan2 (y x : ℝ) : ℝ :=
  if 0 < x then Real.arctan (y / x)
  else if x < 0 then
    if 0 ≤ y then Real.arctan (y / x) + Real.pi else Real.arctan (y / x) - Real.pi
  else
    if 0 < y then Real.pi / 2 else if y < 0 then -(Real.pi / 2) else 0

/-- The intermediate value `a` computed by `haversine` on the
degree-to-radian converted inputs; in the source,
`a = sin(delta_lat/2)**2 + cos(lat1)*cos(lat2)*sin(delta_lon/2)**2`
with `delta_lat = lat1 - lat2`, `delta_lon = lon1 - lon2` in radians. -/
noncomputable def hav_a (lat1 lon1 lat2 lon2 : ℝ) : ℝ :=
  Real.sin ((radians lat1 - radians lat2) / 2) ^ 2 +
    Real.cos (radians lat1) * Real.cos (radians lat2) *
      Real.sin ((radians lon1 - radians lon2) / 2) ^ 2

/-- `haversine(lat1, lon1, lat2, lon2)` from the source:
`c = 2 * atan2(sqrt(a), sqrt(1 - a))`, result `radius_earth * c`. -/
noncomputable def haversine (lat1 lon1 lat2 lon2 : ℝ) : ℝ :=
  radius_earth *
    (2 * atan2 (Real.sqrt (hav_a lat1 lon1 lat2 lon2))
        (Real.sqrt (1 - hav_a lat1 lon1 lat2 lon2)))

/-- The `(math.radians(lat), math.radians(lon))` embedding applied to every
point before it enters the KDTree, and to every query point. -/
noncomputable def radiansPoint (p : ℝ × ℝ) : ℝ × ℝ := (radians p.1, radians p.2)

/-- Squared planar Euclidean distance, the proxy metric the KDTree minimises
(minimising it is equivalent to minimising the Euclidean norm). -/
noncomputable def sqDist (p q : ℝ × ℝ) : ℝ := (p.1 - q.1) ^ 2 + (p.2 - q.2) ^ 2

/-- Index of the least element of a list of proxy distances, first index on
ties: the model of `KDTree.query` returning `idx`. -/
noncomputable def argminIdx : List ℝ → ℕ
  | [] => 0
  | [_] => 0
  | x :: y :: ys =>
    let j := argminIdx (y :: ys)
    if x ≤ (y :: ys).getD j 0 then 0 else j + 1

/-- `tree.query(q)` for the KDTree built over `pts`: the index of a point of
`pts` at minimal planar distance from `q`. -/
noncomputable def kd_query (pts : List (ℝ × ℝ)) (q : ℝ × ℝ) : ℕ :=
  argminIdx (pts.map fun p => sqDist p q)

/-- `match_closest_points(array1, array2)` from the source: empty input
gives `[]`; otherwise build the KDTree over the radian embedding of
`array2`, and for each point of `array1` query it for a closest candidate
and recompute the reported distance with `haversine` on the original
degree coordinates. -/
noncomputable def match_closest_points (array1 array2 : List (ℝ × ℝ)) :
    List ((ℝ × ℝ) × (ℝ × ℝ) × ℝ) :=
  if array1.isEmpty || array2.isEmpty then []
  else
    array1.map fun p =>
      let idx := kd_query (array2.map radiansPoint) (radiansPoint p)
      let m := array2.getD idx (0, 0)
      (p, m, haversine p.1 p.2 m.1 m.2)

attribute [local semireducible] Rat.mul Rat.inv Rat.add Rat.sub Rat.ofScientific

/-- C3 (counterexample): the symbol-DMS token 40°42′51″N (written below
with hex escapes for the minute and second marks) does not parse at all:
it contains no whitespace, so `parse_coordinate` falls through to the
float conversion of the whole token, which fails on the degree symbol and
yields `None`; no grammar for the degree, minute and second symbols exists
in the code. -/
theorem symbol_dms_token_does_not_parse :
    parse_coordinate "40°42\x2751\x22N" = none := by decide

/-- C3 (amended): the space-separated DMS token `"40 42 51 N"` and the plain
decimal token `"40.7142"` both parse and agree within `1e-3` degrees
(their difference is `1/30000`), but the symbol-DMS form 40°42′51″N
fails to parse (`parse_coordinate` returns `None`). -/
theorem parser_equivalence_amended :
    parse_coordinate "40 42 51 N" = some (146571 / 3600) ∧
      parse_coordinate "40.7142" = some (203571 / 5000) ∧
      |(146571 : ℚ) / 3600 - 203571 / 5000| < 1 / 1000 ∧
      parse_coordinate "40°42\x2751\x22N" = none := by
  refine ⟨by decide, by decide, by decide, by decide⟩

/-- C5 (counterexample): a three-field token whose third field is the
fractional seconds value `"51.5"` is not interpreted as seconds:
`"51.5".isdigit()` is false, so the field is treated as a direction suffix
and the result is `40 + 42/60 = 40.7`, not `40 + 42/60 + 51.5/3600`. -/
theorem fractional_seconds_treated_as_direction :
    parse_coordinate "40 42 51.5" = some (407 / 10) ∧
      (407 : ℚ) / 10 ≠ 40 + 42 / 60 + (103 / 2) / 3600 := by
  refine ⟨by decide, by decide⟩

/-- C5 (amended): for a space-separated token of exactly three fields whose
third field consists solely of digit characters (`str.isdigit`, so integer
seconds only), `parse_coordinate` interprets the third field as seconds and
returns degrees + minutes/60 + seconds/3600; a fractional third field such
as `"51.5"` instead takes the direction-suffix branch. -/
theorem three_field_integer_seconds (s d m lp : String) (dv mv sv : ℚ)
    (hsplit : pySplit s = [d, m, lp]) (hdig : pyIsdigit lp = true)
    (hd : pyFloat d = some dv) (hm : pyFloat m = some mv)
    (hlp : pyFloat lp = some sv) :
    parse_coordinate s = some (dv + mv / 60 + sv / 3600) := by
  unfold parse_coordinate
  rw [hsplit]
  simp only [hdig, if_true, hd, hm, hlp]

/-- Witness for the amended C5 theorem at the concrete token `"40 42 51"`. -/
theorem three_field_integer_seconds_applied :
    parse_coordinate "40 42 51" = some ((40 : ℚ) + 42 / 60 + 51 / 3600) :=
  three_field_integer_seconds "40 42 51" "40" "42" "51" 40 42 51
    (by decide) (by decide) (by decide) (by decide) (by decide)

/-- C6 (counterexample): the decimal token `"-40° S"` carrying both an
explicit sign and a direction letter does not produce a compounded
(positive) value: it does not parse at all, `parse_coordinate` returns
`None` (so in particular not `some 40`). -/
theorem signed_decimal_with_direction_yields_none :
    parse_coordinate "-40° S" = none ∧ parse_coordinate "-40° S" ≠ some 40 := by
  refine ⟨by decide, by decide⟩

/-- C6 (amended): no decimal-degrees-with-direction grammar exists in
`parse_coordinate`.  A token that splits into two fields whose second field
is not a valid float (such as a direction letter) is rejected outright, so
no sign/direction compounding can occur: `"-40° S"` yields `None`. -/
theorem two_field_direction_token_rejected (s d dir : String)
    (hsplit : pySplit s = [d, dir]) (hdir : pyFloat dir = none) :
    parse_coordinate s = none := by
  unfold parse_coordinate
  rw [hsplit]
  cases hd : pyFloat d <;> simp only [hdir, hd]

/-- Witness for the amended C6 theorem at the concrete token `"-40° S"`. -/
theorem two_field_direction_token_rejected_applied :
    parse_coordinate "-40° S" = none :=
  two_field_direction_token_rejected "-40° S" "-40°" "S" (by decide) (by decide)

/-- C9: the direction field of a space-separated DMS token is never
validated.  For a 4-field token whose first three fields are valid floats,
parsing succeeds whatever the final field is, and any final field whose
uppercasing is neither `"S"` nor `"W"` leaves the magnitude un-negated;
likewise for a 3-field token whose third field is not purely numeric
(e.g. `"40 30 0 X"` parses to `40.5`). -/
theorem direction_field_never_validated :
    (∀ (s d m sec dir : String) (dv mv sv : ℚ),
        pySplit s = [d, m, sec, dir] →
        pyFloat d = some dv → pyFloat m = some mv → pyFloat sec = some sv →
        parse_coordinate s = some (dms_to_decimal dv mv sv (pyUpper dir)) ∧
          (pyUpper dir ≠ "S" → pyUpper dir ≠ "W" →
            parse_coordinate s = some (dv + mv / 60 + sv / 3600))) ∧
      ∀ (s d m lp : String) (dv mv : ℚ),
        pySplit s = [d, m, lp] → pyIsdigit lp = false →
        pyFloat d = some dv → pyFloat m = some mv →
        parse_coordinate s = some (dms_to_decimal dv mv 0 (pyUpper lp)) ∧
          (pyUpper lp ≠ "S" → pyUpper lp ≠ "W" →
            parse_coordinate s = some (dv + mv / 60)) := by
  constructor
  · intro s d m sec dir dv mv sv hsplit hd hm hsec
    have hmain : parse_coordinate s = some (dms_to_decimal dv mv sv (pyUpper dir)) := by
      unfold parse_coordinate
      rw [hsplit]
      simp only [hd, hm, hsec]
    refine ⟨hmain, fun hS hW => ?_⟩
    rw [hmain, dms_to_decimal, if_neg (by simp [hS, hW])]
  · intro s d m lp dv mv hsplit hdig hd hm
    have hmain : parse_coordinate s = some (dms_to_decimal dv mv 0 (pyUpper lp)) := by
      unfold parse_coordinate
      rw [hsplit]
      simp only [hdig, if_false, Bool.false_eq_true, hd, hm]
    refine ⟨hmain, fun hS hW => ?_⟩
    rw [hmain, dms_to_decimal, if_neg (by simp [hS, hW])]
    norm_num

/-- Witness for C9 at the concrete token `"40 30 0 X"`, whose direction
field `X` is not a compass letter: parsing succeeds, un-negated. -/
theorem direction_field_never_validated_applied :
    parse_coordinate "40 30 0 X" = some ((40 : ℚ) + 30 / 60 + 0 / 3600) :=
  ((direction_field_never_validated.1 "40 30 0 X" "40" "30" "0" "X" 40 30 0
      (by decide) (by decide) (by decide) (by decide)).2 (by decide) (by decide))

/-- C7: every pair kept by the coordinate-loading step is in range
(latitude in [-90, 90], longitude in [-180, 180]), and each kept pair is
the exact parsed value of some input row — out-of-range values are dropped
with their row, never clamped. -/
theorem load_coordinates_in_range (rows : List (String × String)) (p : ℚ × ℚ)
    (hp : p ∈ load_coordinates_from_csv rows) :
    (-90 ≤ p.1 ∧ p.1 ≤ 90 ∧ -180 ≤ p.2 ∧ p.2 ≤ 180) ∧
      ∃ r ∈ rows, parse_coordinate r.1 = some p.1 ∧ parse_coordinate r.2 = some p.2 := by
  rw [load_coordinates_from_csv, List.mem_filterMap] at hp
  obtain ⟨r, hr, hf⟩ := hp
  unfold validate_pair at hf
  cases h1 : parse_coordinate r.1 with
  | none => rw [h1] at hf; exact absurd hf (by simp)
  | some lat =>
    cases h2 : parse_coordinate r.2 with
    | none => rw [h1, h2] at hf; exact absurd hf (by simp)
    | some lon =>
      rw [h1, h2] at hf
      have hf2 : (if -90 ≤ lat ∧ lat ≤ 90 then
          if -180 ≤ lon ∧ lon ≤ 180 then some (lat, lon) else none else none) = some p := hf
      split_ifs at hf2 with hlat hlon
      cases Option.some.inj hf2
      exact ⟨⟨hlat.1, hlat.2, hlon.1, hlon.2⟩, r, hr, h1, h2⟩

/-- Witness for C7 at the one-row input `[("40.5", "-74")]`. -/
theorem load_coordinates_in_range_applied :
    (-90 ≤ (81 : ℚ) / 2 ∧ (81 : ℚ) / 2 ≤ 90 ∧ -180 ≤ (-74 : ℚ) ∧ (-74 : ℚ) ≤ 180) ∧
      ∃ r ∈ [("40.5", "-74")], parse_coordinate r.1 = some ((81 : ℚ) / 2) ∧
        parse_coordinate r.2 = some (-74 : ℚ) :=
  load_coordinates_in_range [("40.5", "-74")] (81 / 2, -74) (by decide)

/-- C4: the empty-input contract of the matcher.  With an empty query set or an
empty reference set, `match_closest_points` returns the empty result list
(no index is built, no query is made, nothing is raised). -/
theorem match_empty_input_contract (q r : List (ℝ × ℝ)) :
    match_closest_points [] r = [] ∧ match_closest_points q [] = [] := by
  constructor <;> simp [match_closest_points]

/-- C2: `haversine` converts all four coordinates from degrees to radians
(multiplication by π/180), forms
`a = sin²(Δlat/2) + cos(lat1)·cos(lat2)·sin²(Δlon/2)` and returns
`2 · R · atan2(√a, √(1−a))` with the fixed radius `R = 6371`. -/
theorem haversine_follows_formula (lat1 lon1 lat2 lon2 : ℝ) :
    haversine lat1 lon1 lat2 lon2 =
      2 * 6371 *
        atan2
          (Real.sqrt (Real.sin ((lat1 * (Real.pi / 180) - lat2 * (Real.pi / 180)) / 2) ^ 2 +
            Real.cos (lat1 * (Real.pi / 180)) * Real.cos (lat2 * (Real.pi / 180)) *
              Real.sin ((lon1 * (Real.pi / 180) - lon2 * (Real.pi / 180)) / 2) ^ 2))
          (Real.sqrt (1 -
            (Real.sin ((lat1 * (Real.pi / 180) - lat2 * (Real.pi / 180)) / 2) ^ 2 +
              Real.cos (lat1 * (Real.pi / 180)) * Real.cos (lat2 * (Real.pi / 180)) *
                Real.sin ((lon1 * (Real.pi / 180) - lon2 * (Real.pi / 180)) / 2) ^ 2))) := by
  simp only [haversine, hav_a, radians, radius_earth]
  ring

/-- C8: the haversine distance from any point to itself is exactly 0 in the
real-number model (`a = 0`, `atan2(0, 1) = 0`). -/
theorem haversine_self_eq_zero (lat lon : ℝ) : haversine lat lon lat lon = 0 := by
  have ha : hav_a lat lon lat lon = 0 := by
    simp [hav_a]
  rw [haversine, ha]
  simp [atan2]

/-- The haversine intermediate `sin²((p−q)/2) + cos p · cos q · sin²(y/2)`
lies in [0, 1] for all real inputs: it equals the convex combination
`(1−s)·sin²((p−q)/2) + s·cos²((p+q)/2)` with `s = sin²(y/2) ∈ [0, 1]`. -/
theorem hav_core_mem_unit (p q y : ℝ) :
    0 ≤ Real.sin ((p - q) / 2) ^ 2 + Real.cos p * Real.cos q * Real.sin (y / 2) ^ 2 ∧
      Real.sin ((p - q) / 2) ^ 2 + Real.cos p * Real.cos q * Real.sin (y / 2) ^ 2 ≤ 1 := by
  have hhalf := Real.sin_sq_eq_half_sub ((p - q) / 2)
  rw [show 2 * ((p - q) / 2) = p - q by ring] at hhalf
  have hcc : Real.cos p * Real.cos q = (Real.cos (p - q) + Real.cos (p + q)) / 2 := by
    rw [Real.cos_sub, Real.cos_add]; ring
  have hs0 : (0 : ℝ) ≤ Real.sin (y / 2) ^ 2 := sq_nonneg _
  have hs1 : Real.sin (y / 2) ^ 2 ≤ 1 := Real.sin_sq_le_one _
  have hA1 : Real.cos (p - q) ≤ 1 := Real.cos_le_one _
  have hA2 : -1 ≤ Real.cos (p - q) := Real.neg_one_le_cos _
  have hB1 : Real.cos (p + q) ≤ 1 := Real.cos_le_one _
  have hB2 : -1 ≤ Real.cos (p + q) := Real.neg_one_le_cos _
  rw [hhalf, hcc]
  constructor
  · nlinarith [mul_nonneg (sub_nonneg.mpr hs1) (sub_nonneg.mpr hA1),
      mul_nonneg hs0 (by linarith : (0 : ℝ) ≤ 1 + Real.cos (p + q))]
  · nlinarith [mul_nonneg (sub_nonneg.mpr hs1) (by linarith : (0 : ℝ) ≤ 1 + Real.cos (p - q)),
      mul_nonneg hs0 (sub_nonneg.mpr hB1)]

/-- `hav_a` always lies in the unit interval, for arbitrary (even
out-of-range) coordinates. -/
theorem hav_a_mem_unit (lat1 lon1 lat2 lon2 : ℝ) :
    0 ≤ hav_a lat1 lon1 lat2 lon2 ∧ hav_a lat1 lon1 lat2 lon2 ≤ 1 := by
  unfold hav_a
  exact hav_core_mem_unit (radians lat1) (radians lat2) (radians lon1 - radians lon2)

/-- `atan2` on non-negative arguments lands in [0, π/2]. -/
theorem atan2_nonneg_le_half_pi (y x : ℝ) (hy : 0 ≤ y) (hx : 0 ≤ x) :
    0 ≤ atan2 y x ∧ atan2 y x ≤ Real.pi / 2 := by
  unfold atan2
  split_ifs with h1 h2 h3 h4
  · constructor
    · rw [← Real.arctan_zero]
      exact Real.arctan_strictMono.monotone (div_nonneg hy (le_of_lt h1))
    · exact (Real.arctan_lt_pi_div_two _).le
  · linarith
  · exact ⟨by positivity, le_refl _⟩
  · linarith
  · exact ⟨le_refl _, by positivity⟩

/-- C10: `haversine` is total over all real inputs: the intermediate `a`
satisfies 0 ≤ a ≤ 1, so both square-root arguments `a` and `1 − a` are
non-negative, and the returned distance lies in [0, π · 6371]. -/
theorem haversine_total_and_bounded (lat1 lon1 lat2 lon2 : ℝ) :
    (0 ≤ hav_a lat1 lon1 lat2 lon2 ∧ hav_a lat1 lon1 lat2 lon2 ≤ 1) ∧
      0 ≤ 1 - hav_a lat1 lon1 lat2 lon2 ∧
      0 ≤ haversine lat1 lon1 lat2 lon2 ∧
      haversine lat1 lon1 lat2 lon2 ≤ Real.pi * 6371 := by
  obtain ⟨ha0, ha1⟩ := hav_a_mem_unit lat1 lon1 lat2 lon2
  obtain ⟨ht0, ht1⟩ := atan2_nonneg_le_half_pi (Real.sqrt (hav_a lat1 lon1 lat2 lon2))
    (Real.sqrt (1 - hav_a lat1 lon1 lat2 lon2)) (Real.sqrt_nonneg _) (Real.sqrt_nonneg _)
  refine ⟨⟨ha0, ha1⟩, by linarith, ?_, ?_⟩
  · unfold haversine radius_earth
    linarith
  · unfold haversine radius_earth
    linarith

/-- The index returned by `argminIdx` is in bounds for a non-empty list. -/
theorem argminIdx_lt_length : ∀ l : List ℝ, l ≠ [] → argminIdx l < l.length
  | [x], _ => by simp [argminIdx]
  | x :: y :: ys, _ => by
    have ih := argminIdx_lt_length (y :: ys) (by simp)
    by_cases h : x ≤ (y :: ys).getD (argminIdx (y :: ys)) 0
    · simp only [argminIdx, h, if_true]
      simp
    · simp only [argminIdx, h, if_false]
      simpa using Nat.succ_lt_succ ih

/-- C1: every result of `match_closest_points` on non-empty inputs carries,
as its reported distance, exactly the haversine distance between the query
point and the candidate point selected by the spatial index (which is a
member of the reference set) — never the planar proxy distance the index
minimises. -/
theorem matched_distance_is_exact_haversine (array1 array2 : List (ℝ × ℝ))
    (h1 : array1 ≠ []) (h2 : array2 ≠ [])
    (r : (ℝ × ℝ) × (ℝ × ℝ) × ℝ) (hr : r ∈ match_closest_points array1 array2) :
    r.2.1 ∈ array2 ∧
      r.2.1 = array2.getD (kd_query (array2.map radiansPoint) (radiansPoint r.1)) (0, 0) ∧
      r.2.2 = haversine r.1.1 r.1.2 r.2.1.1 r.2.1.2 := by
  have he : (array1.isEmpty || array2.isEmpty) = false := by
    cases array1 with
    | nil => exact absurd rfl h1
    | cons a as =>
      cases array2 with
      | nil => exact absurd rfl h2
      | cons b bs => rfl
  rw [match_closest_points, he] at hr
  rw [if_neg Bool.false_ne_true] at hr
  obtain ⟨p, hp, hpr⟩ := List.mem_map.1 hr
  subst hpr
  dsimp only
  have hidx : kd_query (array2.map radiansPoint) (radiansPoint p) < array2.length := by
    have hlen : (array2.map radiansPoint).length = array2.length := List.length_map _ _
    have hne : (array2.map radiansPoint).map (fun q => sqDist q (radiansPoint p)) ≠ [] := by
      simp [h2]
    have := argminIdx_lt_length _ hne
    simpa [kd_query, hlen] using this
  refine ⟨?_, rfl, rfl⟩
  rw [List.getD_eq_getElem array2 (0, 0) hidx]
  exact List.getElem_mem hidx

/-- Witness for C1 on the singleton inputs `[(0, 0)]` and `[(3, 4)]`. -/
theorem matched_distance_is_exact_haversine_applied :
    ((3 : ℝ), (4 : ℝ)) ∈ [((3 : ℝ), (4 : ℝ))] ∧
      ((3 : ℝ), (4 : ℝ)) =
        [((3 : ℝ), (4 : ℝ))].getD
          (kd_query ([((3 : ℝ), (4 : ℝ))].map radiansPoint) (radiansPoint ((0 : ℝ), (0 : ℝ))))
          (0, 0) ∧
      haversine 0 0 3 4 = haversine 0 0 3 4 :=
  matched_distance_is_exact_haversine [(0, 0)] [(3, 4)] (by simp) (by simp)
    (((0 : ℝ), (0 : ℝ)), ((3 : ℝ), (4 : ℝ)), haversine 0 0 3 4)
    (by simp [match_closest_points, kd_query, argminIdx])
